import Mathlib

/-!
Verification of the feature-derivation and inference pipeline of the
fraud-detection app (src/app.py) against its natural-language specification.

The Python source is shallowly embedded:
* machine integers are `Nat`/`Int` with explicit `% 2^64` where overflow matters;
* Python exceptions are an explicit `PyExcType`, and fallible code returns
  `Except PyExcType _` or an `Outcome` value;
* CPython's randomized string hash (SipHash-1-3 keyed by the per-process hash
  secret, as used by `hash(str)` on CPython >= 3.11) is implemented over byte
  lists, parameterized by the two 64-bit key words that change on every process
  restart;
* the Streamlit fraud-check button handler (src/app.py lines 244-292) is a pure
  function of the loaded artifacts, the per-process hash key and the submitted
  form values.
-/

namespace FraudApp

/-- Python exception classes relevant to the handler: `ValueError` and
`KeyError` are caught by the encoding loop, `TypeError` (subscripting `None`)
and `AttributeError` (calling a method of `None`) are not caught anywhere. -/
inductive PyExcType where
  | valueError
  | keyError
  | typeError
  | attributeError
deriving DecidableEq, Repr

/-! ### CPython string hashing (SipHash-1-3), embedding `hash(x)` at line 260 -/

/-- 64-bit modulus for the hash state words. -/
def MASK64 : Nat := 2 ^ 64

/-- Rotate a 64-bit word left by `n` bits. -/
def rotl64 (x n : Nat) : Nat := ((x <<< n) ||| (x >>> (64 - n))) % MASK64

/-- 64-bit wrapping addition. -/
def add64 (a b : Nat) : Nat := (a + b) % MASK64

/-- One SipHash mixing round on the four 64-bit state words. -/
def sipRound : Nat × Nat × Nat × Nat → Nat × Nat × Nat × Nat
  | (v0, v1, v2, v3) =>
    let v0 := add64 v0 v1
    let v1 := rotl64 v1 13
    let v1 := v1 ^^^ v0
    let v0 := rotl64 v0 32
    let v2 := add64 v2 v3
    let v3 := rotl64 v3 16
    let v3 := v3 ^^^ v2
    let v0 := add64 v0 v3
    let v3 := rotl64 v3 21
    let v3 := v3 ^^^ v0
    let v2 := add64 v2 v1
    let v1 := rotl64 v1 17
    let v1 := v1 ^^^ v2
    let v2 := rotl64 v2 32
    (v0, v1, v2, v3)

/-- Little-endian value of a byte list. -/
def le64 (bs : List Nat) : Nat := bs.foldr (fun b acc => b + (acc <<< 8)) 0

/-- Absorb the full 8-byte blocks of the message: each block is xored into
`v3`, one `sipRound` is applied, and the block is xored into `v0`.  Returns
the state together with the remaining (fewer than 8) bytes. -/
def sipBlocks : Nat × Nat × Nat × Nat → List Nat → (Nat × Nat × Nat × Nat) × List Nat
  | st, b0 :: b1 :: b2 :: b3 :: b4 :: b5 :: b6 :: b7 :: rest =>
    let m := le64 [b0, b1, b2, b3, b4, b5, b6, b7]
    let (v0, v1, v2, v3) := st
    let (v0, v1, v2, v3) := sipRound (v0, v1, v2 , v3 ^^^ m)
    sipBlocks (v0 ^^^ m, v1, v2, v3) rest
  | st, rest => (st, rest)

/-- SipHash-1-3 of a byte list under the 128-bit key `(k0, k1)`, exactly the
`pysiphash13` routine CPython uses for string hashing. -/
def siphash13 (k0 k1 : Nat) (data : List Nat) : Nat :=
  let v0 := 0x736f6d6570736575 ^^^ k0
  let v1 := 0x646f72616e646f6d ^^^ k1
  let v2 := 0x6c7967656e657261 ^^^ k0
  let v3 := 0x7465646279746573 ^^^ k1
  let (st, rest) := sipBlocks (v0, v1, v2, v3) data
  let (v0, v1, v2, v3) := st
  let b := ((data.length % 256) <<< 56) + le64 (rest ++ List.replicate (7 - rest.length) 0)
  let (v0, v1, v2, v3) := sipRound (v0, v1, v2, v3 ^^^ b)
  let (v0, v1, v2, v3) := sipRound (sipRound (sipRound (v0 ^^^ b, v1, v2 ^^^ 0xff, v3)))
  (v0 ^^^ v1 ^^^ v2 ^^^ v3) % MASK64

/-- UTF-8 encoding of a Unicode code point. -/
def utf8Bytes (c : Nat) : List Nat :=
  if c < 0x80 then [c]
  else if c < 0x800 then
    [0xC0 ||| (c >>> 6), 0x80 ||| (c &&& 0x3F)]
  else if c < 0x10000 then
    [0xE0 ||| (c >>> 12), 0x80 ||| ((c >>> 6) &&& 0x3F), 0x80 ||| (c &&& 0x3F)]
  else
    [0xF0 ||| (c >>> 18), 0x80 ||| ((c >>> 12) &&& 0x3F),
     0x80 ||| ((c >>> 6) &&& 0x3F), 0x80 ||| (c &&& 0x3F)]

/-- UTF-8 byte sequence of a string. -/
def strBytes (s : String) : List Nat := (s.data.map fun c => utf8Bytes c.toNat).flatten

/-- CPython `hash` of a `str`, as a signed 64-bit value: `0` for the empty
string, otherwise SipHash-1-3 of the UTF-8 bytes keyed by the per-process hash
secret `(k0, k1)` (randomized at interpreter startup unless `PYTHONHASHSEED`
is fixed), reinterpreted as a signed 64-bit integer, with `-1` mapped to `-2`. -/
def pyHashStr (k0 k1 : Nat) (s : String) : Int :=
  if s = "" then 0
  else
    let h := siphash13 (k0 % MASK64) (k1 % MASK64) (strBytes s)
    let x : Int := if h < 2 ^ 63 then (h : Int) else (h : Int) - (2 ^ 64 : Int)
    if x = -1 then -2 else x

/-- The card bucketer of src/app.py line 260: `hash(x) % (10 ** 2)`.
Python's `%` on a positive modulus agrees with `Int.emod`. -/
def pyBucket (k0 k1 : Nat) (s : String) : Int := pyHashStr k0 k1 s % 100

/-! ### Label encoders and the categorical-encoding loop (lines 252-257) -/

/-- The encoder artifact `label_encoder.jb`: a dict mapping a column name to a
fitted `sklearn` `LabelEncoder`, each represented by its `classes_` list.
`transform` of a seen label returns its index in `classes_`. -/
def EncoderDict : Type := List (String × List String)

/-- Position of a label in a `classes_` list: `some i` with `i` the first
index holding the label, `none` when the label does not occur (the case in
which `LabelEncoder.transform` raises `ValueError`). -/
def classIndex (classes : List String) (v : String) : Option Nat :=
  match classes with
  | [] => none
  | c :: rest => if c = v then some 0 else (classIndex rest v).map (· + 1)

/-- Body of one iteration of the encoding loop for a loaded encoder dict:
`encoder[col]` raising `KeyError` (column absent) is caught and yields `-1`;
`LabelEncoder.transform` raising `ValueError` (unseen label) is caught and
yields `-1`; a seen label yields its code, the index in `classes_`. -/
def tryTransform (d : EncoderDict) (col v : String) : Int :=
  match List.lookup col d with
  | none => -1
  | some classes =>
    match classIndex classes v with
    | none => -1
    | some i => (i : Int)

/-- One iteration of the encoding loop including the possibility that the
artifact load failed: when `encoder` is `None`, `encoder[col]` raises
`TypeError`, which the `except (ValueError, KeyError)` clause does not catch,
so it escapes the handler. -/
def encodeCol (enc : Option EncoderDict) (col v : String) : Except PyExcType Int :=
  match enc with
  | none => .error .typeError
  | some d => .ok (tryTransform d col v)

/-! ### Classifier wrapper (lines 263-264) -/

/-- The pre-trained binary classifier, abstracted by its `predict_proba` row:
probabilities for class 0 (legitimate) and class 1 (fraudulent) as exact
rationals.  The feature row is the 9-column DataFrame of line 248 after
encoding and hashing. -/
structure FeatureRow where
  merchant : Int
  category : Int
  amt : ℚ
  distance : ℚ
  hour : Nat
  day : Nat
  month : Nat
  gender : Int
  ccNum : Int
deriving DecidableEq, Repr

/-- A fitted binary classifier, given by its two per-class probability
outputs (its `predict_proba` method). -/
structure Classifier where
  proba0 : FeatureRow → ℚ
  proba1 : FeatureRow → ℚ

/-- The `predict` method of the sklearn-API classifier: the argmax of
`predict_proba` over the two classes, class 0 winning ties (`np.argmax`
returns the first maximal index). -/
def predictLabel (m : Classifier) (f : FeatureRow) : Nat :=
  if m.proba0 f < m.proba1 f then 1 else 0

/-- The confidence the result markup shows (lines 268-283): class 1's
probability when the prediction is 1, class 0's probability otherwise. -/
def displayedConfidence (m : Classifier) (f : FeatureRow) : ℚ :=
  if predictLabel m f = 1 then m.proba1 f else m.proba0 f

/-! ### Artifact loading (lines 108-118) -/

/-- The loaded artifacts: `model, encoder = load_model()`, either of which is
`None` after a failed load. -/
structure Artifacts where
  model : Option Classifier
  encoder : Option EncoderDict

/-- The `load_model` function: the filesystem is abstracted by the two
optional artifact contents (`none` meaning the file is missing, raising
`FileNotFoundError` inside the `try`).  On any missing file the handler shows
`st.error` (second component `true`) and both artifacts come back `None`. -/
def loadModel (modelFile : Option Classifier) (encoderFile : Option EncoderDict) :
    Artifacts × Bool :=
  match modelFile, encoderFile with
  | some m, some e => (⟨some m, some e⟩, false)
  | _, _ => (⟨none, none⟩, true)

/-! ### The fraud-check button handler (lines 244-292) -/

/-- The raw form values the handler reads: the three free-text fields, the
numeric amount and the ambient `distance` value computed by the metrics
section, the three sliders and the gender selectbox. -/
structure Submission where
  merchant : String
  category : String
  amt : ℚ
  distance : ℚ
  hour : Nat
  day : Nat
  month : Nat
  gender : String
  ccNum : String
deriving DecidableEq, Repr

/-- Python truthiness of a `str`: nonempty. -/
def truthyStr (s : String) : Bool := !s.isEmpty

/-- A string that is non-empty yet consists only of whitespace characters. -/
def whitespaceOnly (s : String) : Bool := !s.isEmpty && s.data.all Char.isWhitespace

/-- Result of one press of the fraud-check button:
`validationError` is the `st.error` of line 292; `raised e` is an exception
escaping the handler uncaught; `scored` carries the prediction together with
the two class probabilities that drive the result markup. -/
inductive Outcome where
  | validationError
  | raised (e : PyExcType)
  | scored (label : Nat) (p0 p1 : ℚ)
deriving DecidableEq, Repr

/-- The encoding loop over `['merchant', 'category', 'gender']` in source
order, then the card hash: produces the model-ready feature row of line 248
after the in-place column updates of lines 252-260. -/
def deriveFeatures (enc : Option EncoderDict) (k0 k1 : Nat) (s : Submission) :
    Except PyExcType FeatureRow := do
  let mCode ← encodeCol enc "merchant" s.merchant
  let cCode ← encodeCol enc "category" s.category
  let gCode ← encodeCol enc "gender" s.gender
  pure { merchant := mCode, category := cCode, amt := s.amt, distance := s.distance,
         hour := s.hour, day := s.day, month := s.month, gender := gCode,
         ccNum := pyBucket k0 k1 s.ccNum }

/-- The whole button handler (lines 244-292) as a pure function of the loaded
artifacts, the per-process hash key and the submitted values: the truthiness
guard of line 245, the encoding loop, the card hash, and
`model.predict` / `model.predict_proba` (an `AttributeError` escapes when the
model is `None`). -/
def fraudCheckHandler (art : Artifacts) (k0 k1 : Nat) (s : Submission) : Outcome :=
  if truthyStr s.merchant && truthyStr s.category && truthyStr s.ccNum then
    match deriveFeatures art.encoder k0 k1 s with
    | .error e => .raised e
    | .ok f =>
      match art.model with
      | none => .raised .attributeError
      | some m => .scored (predictLabel m f) (m.proba0 f) (m.proba1 f)
  else .validationError

/-! ### The distance section (lines 120-121, 181-185, 209-210) -/

/-- A raw widget value as the line 209 guard sees it: Streamlit number inputs
return floats, but the guard compares against `None` and the empty string. -/
inductive PyVal where
  | none
  | str (s : String)
  | num (q : ℚ)
deriving DecidableEq, Repr

/-- One conjunct of the line 209 guard: `v is not None and v != ''`. -/
def coordPresent (v : PyVal) : Bool := v ≠ PyVal.none && v ≠ PyVal.str ""

/-- The line 209 guard over the four coordinate widgets:
`all(v is not None and v != '' for v in [lat, long, merch_lat, merch_long])`. -/
def distanceSectionRuns (lat lng mlat mlng : PyVal) : Bool :=
  coordPresent lat && coordPresent lng && coordPresent mlat && coordPresent mlng

/-- Whether a `st.number_input` widget with the given optional bounds accepts
a value.  The four coordinate widgets of lines 181-185 pass no
`min_value`/`max_value`, so both bounds are `none` and every float is
accepted. -/
def numberInputAccepts (lo hi : Option ℚ) (v : ℚ) : Bool :=
  (match lo with | Option.none => true | some l => decide (l ≤ v)) &&
  (match hi with | Option.none => true | some h => decide (v ≤ h))

/-- Degrees to radians. -/
noncomputable def deg2rad (q : ℚ) : ℝ := (q : ℝ) * Real.pi / 180

/-- The surface distance in kilometres that `geodesic(..).km` returns, modelled
from the spec: geopy's ellipsoidal Karney algorithm is library code outside
src/, embedded here as the great-circle central-angle distance on the mean
earth radius, which shares its symmetry in the two points. -/
noncomputable def surfaceKm (lat1 lon1 lat2 lon2 : ℚ) : ℝ :=
  2 * 6371.0088 *
    Real.arcsin (Real.sqrt
      (Real.sin ((deg2rad lat2 - deg2rad lat1) / 2) ^ 2 +
        Real.cos (deg2rad lat1) * Real.cos (deg2rad lat2) *
          Real.sin ((deg2rad lon2 - deg2rad lon1) / 2) ^ 2))

/-- The `haversine` function of lines 120-121: `geodesic` first builds the two
`geopy.Point`s, and `Point` raises `ValueError` when a latitude lies outside
[-90, 90] (longitudes are wrapped, never rejected); otherwise it returns the
surface distance. -/
noncomputable def haversine (lat1 lon1 lat2 lon2 : ℚ) : Except PyExcType ℝ :=
  if ¬(-90 ≤ lat1 ∧ lat1 ≤ 90) then .error .valueError
  else if ¬(-90 ≤ lat2 ∧ lat2 ≤ 90) then .error .valueError
  else .ok (surfaceKm lat1 lon1 lat2 lon2)

/-! ### Sample concrete artifacts for witnesses -/

/-- A concrete fitted encoder dict for concrete evaluations. -/
def sampleEncoder : EncoderDict :=
  [("merchant", ["shop_A", "shop_B"]), ("category", ["grocery"]),
   ("gender", ["Female", "Male"])]

/-- A concrete classifier assigning constant class probabilities 1 and 0. -/
def constClassifier : Classifier where
  proba0 := fun _ => 1
  proba1 := fun _ => 0

/-- Successfully loaded concrete artifacts. -/
def sampleArtifacts : Artifacts := ⟨some constClassifier, some sampleEncoder⟩

/-- A concrete submission matching the end-to-end scenario of the spec. -/
def sampleSubmission : Submission :=
  { merchant := "shop_A", category := "grocery", amt := 50, distance := 6,
    hour := 12, day := 15, month := 6, gender := "Male",
    ccNum := "4111111111111111" }

/-- A concrete feature row for concrete evaluations. -/
def sampleRow : FeatureRow :=
  { merchant := 0, category := 0, amt := 50, distance := 6, hour := 12,
    day := 15, month := 6, gender := 1, ccNum := 38 }

/-! ### Helper lemmas -/

/-- A label that does not occur in `classes_` has no index. -/
theorem classIndex_eq_none_of_not_mem {classes : List String} {v : String}
    (h : v ∉ classes) : classIndex classes v = none := by
  induction classes with
  | nil => rfl
  | cons c rest ih =>
    simp only [List.mem_cons, not_or] at h
    simp only [classIndex, ih h.2]
    rw [if_neg (fun hc : c = v => h.1 hc.symm)]
    rfl

/-- Squared sine of a half-difference is symmetric in the two angles. -/
theorem sin_half_sub_sq (a b : ℝ) :
    Real.sin ((a - b) / 2) ^ 2 = Real.sin ((b - a) / 2) ^ 2 := by
  rw [show (a - b) / 2 = -((b - a) / 2) by ring, Real.sin_neg, neg_sq]

/-- The modelled surface distance is symmetric in the two points. -/
theorem surfaceKm_symm (lat1 lon1 lat2 lon2 : ℚ) :
    surfaceKm lat1 lon1 lat2 lon2 = surfaceKm lat2 lon2 lat1 lon1 := by
  unfold surfaceKm
  rw [sin_half_sub_sq (deg2rad lat2) (deg2rad lat1),
    sin_half_sub_sq (deg2rad lon2) (deg2rad lon1),
    mul_comm (Real.cos (deg2rad lat1)) (Real.cos (deg2rad lat2))]

/-! ### Claim theorems -/

/-- C1: for every categorical field in {merchant, category, gender} and every
input string, encoding a value unseen by the fitted encoder, or whose field
encoder is absent from the loaded dict, returns the sentinel code `-1` inside
`Except.ok` — the `except (ValueError, KeyError)` clause converts both
failures, so no error escapes the encoding loop. -/
theorem c1_encode_unseen_or_unavailable_is_neg_one (d : EncoderDict) (col v : String)
    (_hcol : col = "merchant" ∨ col = "category" ∨ col = "gender")
    (h : List.lookup col d = none ∨
      ∃ classes, List.lookup col d = some classes ∧ v ∉ classes) :
    encodeCol (some d) col v = Except.ok (-1) := by
  rcases h with h | ⟨classes, hc, hv⟩
  · simp [encodeCol, tryTransform, h]
  · simp [encodeCol, tryTransform, hc, classIndex_eq_none_of_not_mem hv]

/-- Witness for C1: the fitted merchant encoder knows only shop_A and shop_B,
so encoding a novel merchant yields `-1` without an exception. -/
theorem c1_witness :
    encodeCol (some sampleEncoder) "merchant" "novel_shop" = Except.ok (-1) :=
  c1_encode_unseen_or_unavailable_is_neg_one sampleEncoder "merchant" "novel_shop"
    (Or.inl rfl) (Or.inr ⟨["shop_A", "shop_B"], rfl, by decide⟩)

/-- C2 counterexample: the bucket of the very same card token differs between
two per-process hash keys (the key CPython uses under PYTHONHASHSEED=0 versus
a key with first word 1), so the bucket is not preserved across process
restarts, contradicting the claim as stated. -/
theorem c2_counterexample :
    pyBucket 0 0 "4111111111111111" ≠ pyBucket 1 0 "4111111111111111" := by
  decide

/-- C2 (amended): within a single process the hash key is fixed, and then the
bucket function is deterministic — the same card token always produces the
same bucket value. -/
theorem c2_bucket_deterministic_within_process (k0 k1 : Nat) (s t : String)
    (h : s = t) : pyBucket k0 k1 s = pyBucket k0 k1 t := by
  rw [h]

/-- Witness for C2 (amended): the sample card token buckets identically on
repeated invocations under the fixed process key. -/
theorem c2_witness :
    pyBucket 0 0 "4111111111111111" = pyBucket 0 0 "4111111111111111" :=
  c2_bucket_deterministic_within_process 0 0 "4111111111111111" "4111111111111111" rfl

/-- C3: for every process hash key and every card token string, the bucket
`hash(x) % (10 ** 2)` is an integer in [0, 99]: Python's `%` with a positive
modulus is `Int.emod`, whose result is nonnegative and below the modulus. -/
theorem c3_bucket_in_range (k0 k1 : Nat) (s : String) :
    0 ≤ pyBucket k0 k1 s ∧ pyBucket k0 k1 s < 100 := by
  unfold pyBucket
  exact ⟨Int.emod_nonneg _ (by norm_num), Int.emod_lt_of_pos _ (by norm_num)⟩

/-- C4: at the failing input (both artifact files missing, then a submission
with all three required fields non-empty) `load_model` does surface the error
banner and return `(None, None)`, but the fraud-check button stays active and
the submission raises an uncaught `TypeError` at `encoder[col]` — the
`except (ValueError, KeyError)` clause does not cover subscripting `None` —
contradicting the claim that classify becomes unavailable and no submission
after a failed load raises an uncaught error. -/
theorem c4_failed_load_submission_raises_typeError :
    (loadModel none none).2 = true ∧
    fraudCheckHandler (loadModel none none).1 0 0
      { merchant := "a", category := "b", amt := 100, distance := 1, hour := 12,
        day := 15, month := 6, gender := "Male", ccNum := "4111111111111111" } =
      Outcome.raised PyExcType.typeError :=
  ⟨rfl, rfl⟩

/-- C5: whenever merchant, category or the card identifier is the empty
string, the line 245 truthiness guard fails, the handler short-circuits to
the `st.error` branch, and no encoding, feature construction or prediction
occurs — the outcome is exactly the validation error. -/
theorem c5_empty_required_field_blocks_classify (art : Artifacts) (k0 k1 : Nat)
    (s : Submission) (h : s.merchant = "" ∨ s.category = "" ∨ s.ccNum = "") :
    fraudCheckHandler art k0 k1 s = Outcome.validationError := by
  rcases h with h | h | h <;>
    simp [fraudCheckHandler, truthyStr, h, show "".isEmpty = true from rfl]

/-- Witness for C5: a submission with an empty merchant field produces the
validation error even with healthy artifacts. -/
theorem c5_witness :
    fraudCheckHandler sampleArtifacts 0 0
      { sampleSubmission with merchant := "" } = Outcome.validationError :=
  c5_empty_required_field_blocks_classify sampleArtifacts 0 0
    { sampleSubmission with merchant := "" } (Or.inl rfl)

/-- C6: for every classifier whose two class probabilities are nonnegative
and sum to one, the confidence the result markup displays (class 1's
probability when the prediction is 1, class 0's otherwise) lies in [0, 1] and
equals the maximum of the two class probabilities, because `predict` is the
argmax of `predict_proba`. -/
theorem c6_displayed_confidence_is_max (m : Classifier) (f : FeatureRow)
    (h0 : 0 ≤ m.proba0 f) (h1 : 0 ≤ m.proba1 f)
    (hsum : m.proba0 f + m.proba1 f = 1) :
    0 ≤ displayedConfidence m f ∧ displayedConfidence m f ≤ 1 ∧
      displayedConfidence m f = max (m.proba0 f) (m.proba1 f) := by
  unfold displayedConfidence predictLabel
  by_cases hlt : m.proba0 f < m.proba1 f
  · rw [if_pos hlt, if_pos rfl, max_eq_right hlt.le]
    exact ⟨h1, by linarith, rfl⟩
  · rw [if_neg hlt]
    push_neg at hlt
    rw [if_neg (by norm_num), max_eq_left hlt]
    exact ⟨h0, by linarith, rfl⟩

/-- Witness for C6: the constant classifier assigns 1 and 0, predicts
class 0, and the displayed confidence is 1, the larger probability. -/
theorem c6_witness :
    0 ≤ displayedConfidence constClassifier sampleRow ∧
    displayedConfidence constClassifier sampleRow ≤ 1 ∧
    displayedConfidence constClassifier sampleRow =
      max (constClassifier.proba0 sampleRow) (constClassifier.proba1 sampleRow) :=
  c6_displayed_confidence_is_max constClassifier sampleRow
    (by norm_num [constClassifier]) (by norm_num [constClassifier])
    (by norm_num [constClassifier])

/-- C7: the distance function is symmetric — swapping the two coordinate
pairs gives the same result, both on the validation path and on the distance
value — and deterministic: equal argument tuples give equal results. -/
theorem c7_haversine_symmetric_and_deterministic
    (lat1 lon1 lat2 lon2 la1 lo1 la2 lo2 : ℚ) :
    ((lat1, lon1, lat2, lon2) = (la1, lo1, la2, lo2) →
      haversine lat1 lon1 lat2 lon2 = haversine la1 lo1 la2 lo2) ∧
    haversine lat1 lon1 lat2 lon2 = haversine lat2 lon2 lat1 lon1 := by
  constructor
  · intro h
    injection h with h1 hrest
    injection hrest with h2 hrest2
    injection hrest2 with h3 h4
    rw [h1, h2, h3, h4]
  · unfold haversine
    by_cases hA : -90 ≤ lat1 ∧ lat1 ≤ 90 <;> by_cases hB : -90 ≤ lat2 ∧ lat2 ≤ 90 <;>
      simp [hA, hB, surfaceKm_symm lat1 lon1 lat2 lon2]

/-- Witness for C7: determinism and symmetry instantiated at the coordinates
of the spec's end-to-end scenario. -/
theorem c7_witness :
    haversine 40 (-74) 41 (-73) = haversine 40 (-74) 41 (-73) ∧
    haversine 40 (-74) 41 (-73) = haversine 41 (-73) 40 (-74) :=
  ⟨(c7_haversine_symmetric_and_deterministic 40 (-74) 41 (-73) 40 (-74) 41 (-73)).1 rfl,
    (c7_haversine_symmetric_and_deterministic 40 (-74) 41 (-73) 40 (-74) 41 (-73)).2⟩

/-- C8: within a single process (fixed loaded artifacts and fixed hash key),
two submissions with identical raw inputs derive identical feature vectors
and identical handler outcomes (label and class probabilities included): the
handler is a pure function of its explicit state. -/
theorem c8_identical_submissions_identical_outputs (art : Artifacts)
    (k0 k1 : Nat) (s t : Submission) (h : s = t) :
    deriveFeatures art.encoder k0 k1 s = deriveFeatures art.encoder k0 k1 t ∧
    fraudCheckHandler art k0 k1 s = fraudCheckHandler art k0 k1 t := by
  rw [h]
  exact ⟨rfl, rfl⟩

/-- Witness for C8: resubmitting the sample submission reproduces both the
feature vector and the outcome. -/
theorem c8_witness :
    deriveFeatures sampleArtifacts.encoder 0 0 sampleSubmission =
      deriveFeatures sampleArtifacts.encoder 0 0 sampleSubmission ∧
    fraudCheckHandler sampleArtifacts 0 0 sampleSubmission =
      fraudCheckHandler sampleArtifacts 0 0 sampleSubmission :=
  c8_identical_submissions_identical_outputs sampleArtifacts 0 0
    sampleSubmission sampleSubmission rfl

/-- C9: the latitude widgets pass no bounds, so the UI accepts latitude 91;
the line 209 guard accepts the four float values; and the distance
computation then raises an uncaught `ValueError` (geopy rejects latitudes
outside [-90, 90]), so the pipeline does not run to completion for all
accepted inputs. -/
theorem c9_out_of_range_latitude_raises :
    numberInputAccepts none none 91 = true ∧
    distanceSectionRuns (PyVal.num 91) (PyVal.num (-74)) (PyVal.num 40)
      (PyVal.num (-73)) = true ∧
    haversine 91 (-74) 40 (-73) = Except.error PyExcType.valueError := by
  refine ⟨rfl, rfl, ?_⟩
  have h : ¬((-90 : ℚ) ≤ 91 ∧ (91 : ℚ) ≤ 90) := by norm_num
  simp [haversine, h]

/-- C10: the submission whose merchant, category and card identifier all
consist of the single space character — non-empty but blank — passes the
truthiness guard of line 245 and reaches the classifier, which scores it. -/
theorem c10_whitespace_fields_reach_classifier :
    whitespaceOnly " " = true ∧
    fraudCheckHandler sampleArtifacts 0 0
      { merchant := " ", category := " ", amt := 100, distance := 1, hour := 12,
        day := 15, month := 6, gender := "Male", ccNum := " " } =
      Outcome.scored 0 1 0 := by
  refine ⟨rfl, ?_⟩
  decide

end FraudApp
